import Mathlib

/-!
Verification of the Gonka multi-source metrics parser (`src/parser.py`)
against its natural-language specification.

The Python module is shallowly embedded here:
* page text is a list of Unicode code points (`Str`),
* Python `re` with the `IGNORECASE` flag is embedded as a small
  backtracking regex engine (`RE`, `mtch`, `reSearch`, `reFinditer`)
  with PCRE-style leftmost, priority-ordered semantics; the
  case-insensitivity of every pattern compiled by the module is baked
  into the character classes via `lowerC`,
* the Playwright page is an external collaborator, so each strategy
  receives the outcome of its page interactions (navigation outcome,
  selector presence, `inner_text`/`content` snapshots) as explicit
  inputs; the one interaction that can raise — `wait_for_selector`
  timing out — is modelled in the `Except` monad,
* fallible strategies return `Except PwErr`; `collect` propagates
  exceptions exactly as the Python `await` chain does.
-/

/-! ## Text as code points -/

/-- Page text: a list of Unicode code points (Python `str` semantics). -/
abbrev Str := List Char

/-- Code points of a string literal. -/
def str (s : String) : Str := s.toList

/-- Python `\s` for `str` patterns (Unicode whitespace), also the set
stripped by `str.strip()`: ASCII whitespace, the C1 separators, NBSP and
the Unicode space/line/paragraph separators. -/
def isPySpace (c : Char) : Bool :=
  c == ' ' || c == '\t' || c == '\n' || c == '\r' || c.toNat == 0x0b || c.toNat == 0x0c ||
  (0x1c ≤ c.toNat && c.toNat ≤ 0x1f) || c.toNat == 0x85 || c.toNat == 0xa0 ||
  c.toNat == 0x1680 || (0x2000 ≤ c.toNat && c.toNat ≤ 0x200a) ||
  c.toNat == 0x2028 || c.toNat == 0x2029 || c.toNat == 0x202f ||
  c.toNat == 0x205f || c.toNat == 0x3000

/-- Case folding used for `re.IGNORECASE`: ASCII letters and the
Cyrillic letters that appear in the module's patterns. -/
def lowerC (c : Char) : Char :=
  if 'A' ≤ c && c ≤ 'Z' then Char.ofNat (c.toNat + 32)
  else if 0x410 ≤ c.toNat && c.toNat ≤ 0x42f then Char.ofNat (c.toNat + 32)
  else if c.toNat = 0x401 then Char.ofNat 0x451
  else c

/-- Python `\w` restricted to the alphabets the module's texts use:
ASCII alphanumerics, underscore, and the Cyrillic block. -/
def isWordChar (c : Char) : Bool :=
  c.isAlphanum || c == '_' || (0x400 ≤ c.toNat && c.toNat ≤ 0x4ff)

/-- ASCII digit, the `\d` of every pattern in the module. -/
def isDig (c : Char) : Bool := '0' ≤ c && c ≤ '9'

/-! ## `clean_spaces` (src/parser.py lines 70-71)

`re.sub(r"\s+", " ", value.replace("\xa0", " ")).strip()`:
replace NBSP by a plain space, collapse every maximal whitespace run to
a single space, then strip leading and trailing whitespace. -/

/-- The `value.replace("\xa0", " ")` step (U+00A0 is the NBSP). -/
def replaceNbsp (s : Str) : Str := s.map (fun c => if c.toNat == 0xa0 then ' ' else c)

/-- `re.sub(r"\s+", " ", s)`: emit `' '` at the head of each maximal
whitespace run, skip the rest of the run, copy other characters.
The flag records whether we are inside a run already replaced. -/
def collapseAux : Bool → Str → Str
  | _, [] => []
  | inRun, c :: cs =>
    if isPySpace c then
      if inRun then collapseAux true cs
      else ' ' :: collapseAux true cs
    else c :: collapseAux false cs

/-- `re.sub(r"\s+", " ", s)`. -/
def collapseWs (s : Str) : Str := collapseAux false s

/-- Left half of `str.strip()`. -/
def lstripWs (s : Str) : Str := s.dropWhile isPySpace

/-- Right half of `str.strip()`. -/
def rstripWs (s : Str) : Str := (s.reverse.dropWhile isPySpace).reverse

/-- `str.strip()`: remove leading and trailing whitespace. -/
def stripWs (s : Str) : Str := lstripWs (rstripWs s)

/-- `clean_spaces` from src/parser.py. -/
def clean_spaces (s : Str) : Str := stripWs (collapseWs (replaceNbsp s))

/-- No two adjacent whitespace characters (no whitespace run longer
than one character). -/
def okRun : Str → Bool
  | a :: b :: t => (!(isPySpace a && isPySpace b)) && okRun (b :: t)
  | _ => true

/-- The head, if any, is not whitespace. -/
def headOk (s : Str) : Bool :=
  match s.head? with
  | none => true
  | some c => !isPySpace c

/-- The last character, if any, is not whitespace. -/
def lastOk (s : Str) : Bool := headOk s.reverse

/-- Every whitespace character is a plain `' '`. -/
def wsCanon (s : Str) : Bool := s.all (fun c => !isPySpace c || c == ' ')

/-! ## The regex engine

A backtracking matcher with PCRE/Python `re` semantics: leftmost start
position wins; at a given position alternatives are tried left to
right, greedy quantifiers longest-first, lazy quantifiers
shortest-first; an unbounded/bounded quantifier never repeats an
empty-width iteration.  Capturing groups record the span of their last
successful iteration.  Fuel only bounds the recursion; it is chosen
large enough for every evaluation in this file. -/

/-- Regex abstract syntax.  Character classes are predicates; the
`IGNORECASE` flag of the Python module is compiled into literal-character
classes (see `chC`). -/
inductive RE where
  | eps
  | cls (p : Char → Bool)
  | seq (a b : RE)
  | alt (a b : RE)
  | star (a : RE)
  | rep (lo hi : Nat) (lazy : Bool) (a : RE)
  | grp (n : Nat) (a : RE)

/-- Structural size, used only to budget matcher fuel. -/
def RE.size : RE → Nat
  | .eps => 1
  | .cls _ => 1
  | .seq a b => a.size + b.size + 1
  | .alt a b => a.size + b.size + 1
  | .star a => a.size + 1
  | .rep _ hi _ a => (hi + 1) * (a.size + 1) + 1
  | .grp _ a => a.size + 1

/-- Recorded capture spans, most recent first. -/
abbrev Caps := List (Nat × Nat × Nat)

/-- Span of group `n`, latest write wins. -/
def capsGet : Caps → Nat → Option (Nat × Nat)
  | [], _ => none
  | (g, a, b) :: rest, n => if g = n then some (a, b) else capsGet rest n

/-- Character at a code-point index. -/
def charAt : Str → Nat → Option Char
  | [], _ => none
  | c :: _, 0 => some c
  | _ :: t, n + 1 => charAt t n

/-- CPS backtracking matcher.  `mtch fuel re s pos caps k` tries to
match `re` in `s` starting at `pos`; on each way of matching (in
priority order) it calls the continuation `k` with the new position and
captures, returning the first success. -/
def mtch : Nat → RE → Str → Nat → Caps →
    (Nat → Caps → Option (Nat × Caps)) → Option (Nat × Caps)
  | 0, _, _, _, _, _ => none
  | Nat.succ fuel, re, s, pos, caps, k =>
    match re with
    | .eps => k pos caps
    | .cls p =>
      match charAt s pos with
      | some c => if p c then k (pos + 1) caps else none
      | none => none
    | .seq a b => mtch fuel a s pos caps (fun p c => mtch fuel b s p c k)
    | .alt a b =>
      match mtch fuel a s pos caps k with
      | some r => some r
      | none => mtch fuel b s pos caps k
    | .star a =>
      match mtch fuel a s pos caps
          (fun p c => if p = pos then none else mtch fuel (.star a) s p c k) with
      | some r => some r
      | none => k pos caps
    | .rep lo hi lz a =>
      if 0 < lo then
        mtch fuel a s pos caps (fun p c => mtch fuel (.rep (lo - 1) (hi - 1) lz a) s p c k)
      else if hi = 0 then k pos caps
      else if lz then
        match k pos caps with
        | some r => some r
        | none =>
          mtch fuel a s pos caps
            (fun p c => if p = pos then none else mtch fuel (.rep 0 (hi - 1) lz a) s p c k)
      else
        match mtch fuel a s pos caps
            (fun p c => if p = pos then none else mtch fuel (.rep 0 (hi - 1) lz a) s p c k) with
        | some r => some r
        | none => k pos caps
    | .grp n a => mtch fuel a s pos caps (fun p c => k p ((n, pos, p) :: c))

/-- A regex match: span in the subject plus captures
(`group(0)` is `[start, stop)`). -/
structure RMatch where
  start : Nat
  stop : Nat
  caps : Caps
deriving Repr

/-- Fuel budget: generous for the pattern/text sizes in this module. -/
def mtchFuel (s : Str) (re : RE) : Nat :=
  2 * (s.length + 2) * (s.length + 2) * (re.size + 2)

/-- Try to match `re` anchored at `pos`. -/
def reSearchAt (re : RE) (s : Str) (pos : Nat) : Option RMatch :=
  match mtch (mtchFuel s re) re s pos [] (fun p c => some (p, c)) with
  | some (p, c) => some ⟨pos, p, c⟩
  | none => none

/-- Scan start positions `pos, pos+1, ...` (at most `left` of them) for
the leftmost match. -/
def reSearchAux (re : RE) (s : Str) : Nat → Nat → Option RMatch
  | 0, _ => none
  | Nat.succ left, pos =>
    match reSearchAt re s pos with
    | some m => some m
    | none => reSearchAux re s left (pos + 1)

/-- Python `re.search`: leftmost match anywhere in `s` (including the
empty position at the end). -/
def reSearch (re : RE) (s : Str) : Option RMatch :=
  reSearchAux re s (s.length + 1) 0

/-- Python `re.finditer`: non-overlapping matches, scanning left to
right; after a match the scan resumes at its end (one past it for an
empty match). -/
def reFinditerAux (re : RE) (s : Str) : Nat → Nat → List RMatch
  | 0, _ => []
  | Nat.succ left, pos =>
    if pos > s.length then []
    else
      match reSearchAux re s (s.length + 1 - pos) pos with
      | none => []
      | some m =>
        m :: reFinditerAux re s left (if m.stop = m.start then m.stop + 1 else m.stop)

/-- Python `re.finditer`. -/
def reFinditer (re : RE) (s : Str) : List RMatch :=
  reFinditerAux re s (s.length + 2) 0

/-- `s[a:b]` for `0 ≤ a ≤ b`. -/
def pySlice (s : Str) (a b : Nat) : Str := (s.drop a).take (b - a)

/-- `m.group(0)`. -/
def RMatch.group0 (m : RMatch) (s : Str) : Str := pySlice s m.start m.stop

/-- `m.group(1)`; every pattern in the module whose group 1 is read has
group 1 participate in any successful match, so the unset case (Python
`None`) is represented by the empty string. -/
def RMatch.group1 (m : RMatch) (s : Str) : Str :=
  match capsGet m.caps 1 with
  | some (a, b) => pySlice s a b
  | none => []

/-! ## The module's compiled patterns

Every `re.search`/`re.finditer` call in src/parser.py passes
`flags=re.IGNORECASE` except the GitHub counter scan
`re.search(r"\d[\d\s.,kKmM]*", raw)`, whose classes are case-closed
anyway; case-insensitivity is compiled into `chC`. -/

/-- A literal character, case-insensitively. -/
def chC (c : Char) : RE := .cls (fun x => lowerC x == lowerC c)

/-- A literal word, case-insensitively. -/
def strC (w : String) : RE := (w.toList.map chC).foldr RE.seq RE.eps

/-- `\s` -/
def wsR : RE := .cls isPySpace

/-- `\d` -/
def digR : RE := .cls isDig

/-- `\w` -/
def wordR : RE := .cls isWordChar

/-- `x?` (greedy) -/
def optR (a : RE) : RE := .alt a .eps

/-- `x+` (greedy) -/
def plusR (a : RE) : RE := .seq a (.star a)

/-- `r"Validators|Валидатор\w*"` (parse_node). -/
def reLabelValidators : RE :=
  .alt (strC "Validators") (.seq (strC "Валидатор") (.star wordR))

/-- `r"\d{1,8}"` (parse_node). -/
def reDigits18 : RE := .rep 1 8 false digR

/-- `r"Next\s*PoC"` (parse_node). -/
def reLabelNextPoc : RE := .seq (strC "Next") (.seq (.star wsR) (strC "PoC"))

/-- `r"\d+\s*h\s*\d+\s*m\s*\d+\s*s"` (parse_node). -/
def reDuration : RE :=
  .seq (plusR digR) (.seq (.star wsR) (.seq (chC 'h') (.seq (.star wsR)
    (.seq (plusR digR) (.seq (.star wsR) (.seq (chC 'm') (.seq (.star wsR)
      (.seq (plusR digR) (.seq (.star wsR) (chC 's'))))))))))

/-- The class `[\d\s\xa0.,]` (parse_discord, also `[\d\s.,\xa0]` in
parse_x pattern 2; the NBSP U+00A0 is listed although it is already in `\s`). -/
def clsNumSep : RE :=
  .cls (fun c => isDig c || isPySpace c || c.toNat == 0xa0 || c == '.' || c == ',')

/-- The class `[\d\s.,]` (parse_x patterns 1 and 3). -/
def clsNumSepX : RE := .cls (fun c => isDig c || isPySpace c || c == '.' || c == ',')

/-- `r"(\d[\d\s\xa0.,]*)\s*(?:в\s*сети|online)"` (parse_discord). -/
def reOnline : RE :=
  .seq (.grp 1 (.seq digR (.star clsNumSep)))
    (.seq (.star wsR)
      (.alt (.seq (chC 'в') (.seq (.star wsR) (strC "сети"))) (strC "online")))

/-- `r"(\d[\d\s\xa0.,]*)\s*(?:участник\w*|members?)"` (parse_discord). -/
def reMembers : RE :=
  .seq (.grp 1 (.seq digR (.star clsNumSep)))
    (.seq (.star wsR)
      (.alt (.seq (strC "участник") (.star wordR))
            (.seq (strC "member") (optR (chC 's')))))

/-- `(?:тыс\.?|k|m)?` (parse_x). -/
def reMagnitude : RE :=
  optR (.alt (.seq (strC "тыс") (optR (chC '.'))) (.alt (chC 'k') (chC 'm')))

/-- `r"(\d[\d\s.,]*\s*(?:тыс\.?|k|m)?)\s*(?:читател\w+|followers?)"` (parse_x). -/
def reXP1 : RE :=
  .seq (.grp 1 (.seq digR (.seq (.star clsNumSepX) (.seq (.star wsR) reMagnitude))))
    (.seq (.star wsR)
      (.alt (.seq (strC "читател") (plusR wordR))
            (.seq (strC "follower") (optR (chC 's')))))

/-- `r"verified_followers[^<]{0,500}?>(\d[\d\s.,\xa0]*\s*(?:тыс\.?|k|m)?)<"`
(parse_x). -/
def reXP2 : RE :=
  .seq (strC "verified_followers")
    (.seq (.rep 0 500 true (.cls (fun c => !(c == '<'))))
      (.seq (chC '>')
        (.seq (.grp 1 (.seq digR (.seq (.star clsNumSep) (.seq (.star wsR) reMagnitude))))
          (chC '<'))))

/-- `r"followers_count\D{0,20}(\d[\d\s.,]*)"` (parse_x). -/
def reXP3 : RE :=
  .seq (strC "followers_count")
    (.seq (.rep 0 20 false (.cls (fun c => !isDig c)))
      (.grp 1 (.seq digR (.star clsNumSepX))))

/-- parse_x's fallback patterns, in source order. -/
def xPatterns : List RE := [reXP1, reXP2, reXP3]

/-- The class `[\d\s.,kKmM]` (parse_github). -/
def clsStars : RE :=
  .cls (fun c => isDig c || isPySpace c || c == '.' || c == ',' ||
    c == 'k' || c == 'K' || c == 'm' || c == 'M')

/-- `r"\d[\d\s.,kKmM]*"` (parse_github selector text filter). -/
def reCounterNum : RE := .seq digR (.star clsStars)

/-- `r"(\d[\d\s.,kKmM]*)\s*stars?"` (parse_github body fallback). -/
def reStarsText : RE :=
  .seq (.grp 1 reCounterNum) (.seq (.star wsR) (.seq (strC "star") (optR (chC 's'))))

/-- `\d+(?:[.,]\d+)*` (parse_hex value shape). -/
def reNumDec : RE :=
  .seq (plusR digR) (.star (.seq (.cls (fun c => c == '.' || c == ',')) (plusR digR)))

/-- `r"(?:Sell\s*Price|Цена\s*продажи)\s*[:]?\s*\$?\s*(\d+(?:[.,]\d+)*)"`
(parse_hex, first pattern). -/
def reHexSell : RE :=
  .seq (.alt (.seq (strC "Sell") (.seq (.star wsR) (strC "Price")))
             (.seq (strC "Цена") (.seq (.star wsR) (strC "продажи"))))
    (.seq (.star wsR) (.seq (optR (chC ':')) (.seq (.star wsR)
      (.seq (optR (chC '$')) (.seq (.star wsR) (.grp 1 reNumDec))))))

/-- `r"(?:Buy\s*Price|Цена\s*покупки)\s*[:]?\s*\$?\s*(\d+(?:[.,]\d+)*)"`
(parse_hex, second pattern). -/
def reHexBuy : RE :=
  .seq (.alt (.seq (strC "Buy") (.seq (.star wsR) (strC "Price")))
             (.seq (strC "Цена") (.seq (.star wsR) (strC "покупки"))))
    (.seq (.star wsR) (.seq (optR (chC ':')) (.seq (.star wsR)
      (.seq (optR (chC '$')) (.seq (.star wsR) (.grp 1 reNumDec))))))

/-- `r"\$\s*(\d+(?:[.,]\d+)*)"` (parse_hex, third pattern). -/
def reHexBare : RE := .seq (chC '$') (.seq (.star wsR) (.grp 1 reNumDec))

/-- parse_hex's patterns, in source order. -/
def hexPatterns : List RE := [reHexSell, reHexBuy, reHexBare]

/-! ## `find_near_label` (src/parser.py lines 74-86) -/

/-- `find_near_label` from src/parser.py: find the first label match,
then return the first value-pattern match inside the window
`[match.start - window, match.end + window]` (clamped to the text)
whose normalized form is non-empty. -/
def find_near_label (text : Str) (label_regex value_regex : RE) (window : Nat) : Option Str :=
  match reSearch label_regex text with
  | none => none
  | some m =>
    let start : Nat := (max 0 ((m.start : Int) - (window : Int))).toNat
    let stop : Nat := min text.length (m.stop + window)
    let chunk := pySlice text start stop
    (reFinditer value_regex chunk).findSome? (fun c =>
      let value := clean_spaces (c.group0 chunk)
      if value = [] then none else some value)

/-! ## Spec-side transcription of the extractor algorithm (spec §4.2)

Used only for the refinement claim: these definitions follow the
spec's words ("scan left-to-right ...; return the first candidate whose
normalized form is non-empty"), to be compared with `find_near_label`
above, which is translated from the source. -/

/-- Spec §4.2 step 3: scan the window's candidates left to right and
return the first whose normalized form is non-empty. -/
def firstNonEmptyCandidate (win : Str) : List RMatch → Option Str
  | [] => none
  | c :: rest =>
    let v := clean_spaces (c.group0 win)
    if v = [] then firstNonEmptyCandidate win rest else some v

/-- Spec §4.2, steps 1-4, transcribed from the spec's words. -/
def find_near_label_spec (text : Str) (label_regex value_regex : RE) (window : Nat) : Option Str :=
  match reSearch label_regex text with
  | none => none
  | some m =>
    let lo : Nat := (max 0 ((m.start : Int) - (window : Int))).toNat
    let hi : Nat := min text.length (m.stop + window)
    let win := pySlice text lo hi
    firstNonEmptyCandidate win (reFinditer value_regex win)

/-! ## Metric records (src/parser.py lines 35-67) -/

/-- `NodeMetrics` dataclass. -/
structure NodeMetrics where
  url : String
  available : Bool
  total_compute_power : Option Str
  validators : Option Str
  next_poc : Option Str
  error : Option String
deriving DecidableEq, Repr

/-- `DiscordMetrics` dataclass. -/
structure DiscordMetrics where
  online : Option Str
  members : Option Str
  error : Option String
deriving DecidableEq, Repr

/-- `XMetrics` dataclass. -/
structure XMetrics where
  followers : Option Str
  error : Option String
deriving DecidableEq, Repr

/-- `GitHubMetrics` dataclass. -/
structure GitHubMetrics where
  stars : Option Str
  error : Option String
deriving DecidableEq, Repr

/-- `HexMetrics` dataclass. -/
structure HexMetrics where
  price : Option Str
  error : Option String
deriving DecidableEq, Repr

/-! ## The fetch boundary (src/parser.py lines 89-100) -/

/-- Outcome of the Playwright `page.goto` call, as seen by `goto_soft`:
a response with an HTTP status, no response, a navigation timeout, or
any other exception with its message. -/
inductive NavOutcome where
  | response (status : Nat)
  | noResponse
  | timeout
  | exn (msg : String)
deriving DecidableEq, Repr

/-- `goto_soft` from src/parser.py: the soft fetch boundary, total over
every navigation outcome. -/
def goto_soft : NavOutcome → Bool × Option String
  | .response s => if s ≥ 400 then (false, some ("HTTP " ++ toString s)) else (true, none)
  | .noResponse => (false, some "No response")
  | .timeout => (false, some "Timeout")
  | .exn msg => (false, some msg)

/-- The one exception the embedded extraction phase can raise: a
Playwright `wait_for_selector` timeout (the selector never appears). -/
inductive PwErr where
  | timeout
deriving DecidableEq, Repr

/-! ## Per-strategy page environments

A strategy's view of its (external) page: the navigation outcome and
the data its page interactions would return. -/

/-- parse_node's page: navigation outcome; whether
`wait_for_selector("text=Total Compute Power")` finds its element in
time; the value produced by the `page.evaluate` card query (`null`
becomes `none`); and `inner_text("body")`. -/
structure NodeEnv where
  nav : NavOutcome
  has_total_label : Bool
  eval_total : Option Str
  body : Str
deriving Repr

/-- parse_discord's page: navigation outcome; whether
`wait_for_selector("text=/в\s*сети|online/i")` finds its element in
time; `page.content()`; and `inner_text("body")`. -/
structure DiscordEnv where
  nav : NavOutcome
  has_online_sel : Bool
  html : Str
  body : Str
deriving Repr

/-- parse_x's page: navigation outcome, `page.content()` and
`inner_text("body")`. -/
structure XEnv where
  nav : NavOutcome
  content : Str
  body : Str
deriving Repr

/-- parse_github's page: navigation outcome; for each of the three
stargazer selectors, `none` when `loc.count() == 0`, else the
`inner_text` of the first located element; and `inner_text("body")`. -/
structure GitHubEnv where
  nav : NavOutcome
  sel1 : Option Str
  sel2 : Option Str
  sel3 : Option Str
  body : Str
deriving Repr

/-- parse_hex's page: navigation outcome and `inner_text("body")`
(taken after `dismiss_hex_popups`, which only clicks and swallows its
own failures). -/
structure HexEnv where
  nav : NavOutcome
  body : Str
deriving Repr

/-! ## The five strategies (src/parser.py lines 103-257) -/

/-- `clean_spaces(total) if total else None` in parse_node: Python
truthiness makes both `None` and `""` fall to `None`. -/
def totalField : Option Str → Option Str
  | some v => if v = [] then none else some (clean_spaces v)
  | none => none

/-- `parse_node` from src/parser.py.  After a failed fetch it returns
the unavailable record; otherwise `wait_for_selector` raises a timeout
when the "Total Compute Power" text never appears; otherwise the card
query fills `total_compute_power` and `find_near_label` fills
`validators` (window 120) and `next_poc` (window 200). -/
def parse_node (url : String) (e : NodeEnv) : Except PwErr NodeMetrics :=
  if (goto_soft e.nav).fst then
    if e.has_total_label then
      Except.ok ⟨url, true, totalField e.eval_total,
        find_near_label (clean_spaces e.body) reLabelValidators reDigits18 120,
        find_near_label (clean_spaces e.body) reLabelNextPoc reDuration 200,
        none⟩
    else Except.error PwErr.timeout
  else Except.ok ⟨url, false, none, none, none, (goto_soft e.nav).snd⟩

/-- `parse_discord` from src/parser.py.  `combined = f"{html} {text}"`;
the two regex searches over it are independent and windowless. -/
def parse_discord (e : DiscordEnv) : Except PwErr DiscordMetrics :=
  if (goto_soft e.nav).fst then
    if e.has_online_sel then
      let combined := e.html ++ ' ' :: clean_spaces e.body
      Except.ok
        ⟨(reSearch reOnline combined).map (fun m => clean_spaces (m.group1 combined)),
         (reSearch reMembers combined).map (fun m => clean_spaces (m.group1 combined)),
         none⟩
    else Except.error PwErr.timeout
  else Except.ok ⟨none, none, (goto_soft e.nav).snd⟩

/-- `parse_x` from src/parser.py.  `combined = f"{text} {content}"`;
the three fallback patterns are tried in order and the first match wins
(its normalized group 1, even when that normalizes to empty). -/
def parse_x (e : XEnv) : Except PwErr XMetrics :=
  if (goto_soft e.nav).fst then
    let combined := clean_spaces e.body ++ ' ' :: e.content
    Except.ok
      ⟨xPatterns.findSome? (fun p =>
          (reSearch p combined).map (fun m => clean_spaces (m.group1 combined))),
       none⟩
  else Except.ok ⟨none, (goto_soft e.nav).snd⟩

/-- The selector loop of `parse_github`: for each located selector, the
digit pattern is searched in its cleaned text; the loop breaks only
when that search matches, otherwise it falls through to the next
selector. -/
def starsFromSelectors : List (Option Str) → Option Str
  | [] => none
  | none :: rest => starsFromSelectors rest
  | some raw0 :: rest =>
    let raw := clean_spaces raw0
    match reSearch reCounterNum raw with
    | some m => some (clean_spaces (m.group0 raw))
    | none => starsFromSelectors rest

/-- Python truthiness of `stars` (`None` and `""` are falsy). -/
def truthy : Option Str → Bool
  | none => false
  | some s => !s.isEmpty

/-- `parse_github` from src/parser.py: the three structural selectors
first, then the body-text `stars?` regex when the selectors produced
nothing truthy. -/
def parse_github (e : GitHubEnv) : Except PwErr GitHubMetrics :=
  if (goto_soft e.nav).fst then
    let stars0 := starsFromSelectors [e.sel1, e.sel2, e.sel3]
    let stars :=
      if truthy stars0 then stars0
      else
        match reSearch reStarsText (clean_spaces e.body) with
        | some m => some (clean_spaces (m.group1 (clean_spaces e.body)))
        | none => stars0
    Except.ok ⟨stars, none⟩
  else Except.ok ⟨none, (goto_soft e.nav).snd⟩

/-- `parse_hex` from src/parser.py.  `dismiss_hex_popups` swallows its
own failures and only affects the page, so it is invisible here; the
three price patterns are tried in order, first match wins, and ordinary
spaces are removed from the captured digits
(`m.group(1).replace(" ", "")`). -/
def parse_hex (e : HexEnv) : Except PwErr HexMetrics :=
  if (goto_soft e.nav).fst then
    let text := clean_spaces e.body
    Except.ok
      ⟨hexPatterns.findSome? (fun p =>
          (reSearch p text).map (fun m => (m.group1 text).filter (fun c => !(c == ' ')))),
       none⟩
  else Except.ok ⟨none, (goto_soft e.nav).snd⟩

/-! ## The aggregator (src/parser.py lines 260-296) -/

/-- `NODE_URLS` from src/parser.py. -/
def NODE_URLS : List String :=
  ["http://node1.gonka.ai:8000", "http://node2.gonka.ai:8000"]

/-- One aggregation run's external world: what each source's fresh page
would show.  `node` maps a node URL to its page. -/
structure World where
  node : String → NodeEnv
  discord : DiscordEnv
  x : XEnv
  github : GitHubEnv
  hex : HexEnv

/-- The snapshot dict returned by `collect`. -/
structure Snapshot where
  nodes : List NodeMetrics
  discord : DiscordMetrics
  x : XMetrics
  github : GitHubMetrics
  hex : HexMetrics
deriving DecidableEq, Repr

/-- The `for url in NODE_URLS` loop of `collect`: appends one record
per URL in order; an exception aborts the loop (and the run). -/
def collectNodes (w : World) : List String → Except PwErr (List NodeMetrics)
  | [] => Except.ok []
  | u :: rest =>
    match parse_node u (w.node u) with
    | Except.error e => Except.error e
    | Except.ok r =>
      match collectNodes w rest with
      | Except.error e => Except.error e
      | Except.ok rs => Except.ok (r :: rs)

/-- `collect` from src/parser.py: node strategies in configured order,
then the four singleton strategies; any exception from a strategy
propagates (there is no try/except around the strategy calls). -/
def collect (w : World) : Except PwErr Snapshot :=
  match collectNodes w NODE_URLS with
  | Except.error e => Except.error e
  | Except.ok nodes =>
    match parse_discord w.discord with
    | Except.error e => Except.error e
    | Except.ok d =>
      match parse_x w.x with
      | Except.error e => Except.error e
      | Except.ok xm =>
        match parse_github w.github with
        | Except.error e => Except.error e
        | Except.ok gm =>
          match parse_hex w.hex with
          | Except.error e => Except.error e
          | Except.ok hm => Except.ok ⟨nodes, d, xm, gm, hm⟩

/-! ## Auxiliary definitions for the verification -/

deriving instance DecidableEq for Except

/-- Did the strategy return normally (no exception)? -/
def isOkE {α : Type} : Except PwErr α → Bool
  | Except.ok _ => true
  | Except.error _ => false

/-- A node page whose fetch times out. -/
def nodeEnvDown : NodeEnv := ⟨NavOutcome.timeout, true, none, []⟩

/-- A reachable node page showing its label but no extractable fields. -/
def nodeEnvUp : NodeEnv := ⟨NavOutcome.response 200, true, none, []⟩

/-- A reachable node page that never shows "Total Compute Power":
`wait_for_selector` times out on it. -/
def nodeEnvHang : NodeEnv := ⟨NavOutcome.response 200, false, none, []⟩

/-- A reachable, selector-bearing community page whose combined text is
the spec's example `"Гонка 1 234 в сети, 5 678 участников"`. -/
def discordEnvRu : DiscordEnv :=
  ⟨NavOutcome.response 200, true, str "Гонка 1 234 в сети,", str "5 678 участников"⟩

/-- A reachable price page whose text contains both a localized sell
price and a bare currency-prefixed number. -/
def hexEnvBoth : HexEnv := ⟨NavOutcome.response 200, str "Sell Price: 3.50 or $9.99"⟩

/-- A label followed by 130 filler characters, the nearest digits
beyond the default window of 120. -/
def labelFarText : Str := str "Validators" ++ List.replicate 130 'x' ++ str "123"

/-- Reachable pages with no extractable content for the four singleton
sources. -/
def discordEnvIdle : DiscordEnv := ⟨NavOutcome.response 200, true, [], []⟩

/-- See `discordEnvIdle`. -/
def xEnvIdle : XEnv := ⟨NavOutcome.response 200, [], []⟩

/-- See `discordEnvIdle`. -/
def githubEnvIdle : GitHubEnv := ⟨NavOutcome.response 200, none, none, none, []⟩

/-- See `discordEnvIdle`. -/
def hexEnvIdle : HexEnv := ⟨NavOutcome.response 200, []⟩

/-- The claim C4 scenario: the first node's fetch times out, the second
node and the four singleton sources are reachable. -/
def worldOneDown : World :=
  ⟨fun u => if u = "http://node1.gonka.ai:8000" then nodeEnvDown else nodeEnvUp,
   discordEnvIdle, xEnvIdle, githubEnvIdle, hexEnvIdle⟩

/-- A world whose first node page is reachable but never renders the
awaited label text. -/
def worldHang : World :=
  ⟨fun u => if u = "http://node1.gonka.ai:8000" then nodeEnvHang else nodeEnvUp,
   discordEnvIdle, xEnvIdle, githubEnvIdle, hexEnvIdle⟩

/-! ## Lemmas: `clean_spaces` canonical form -/

theorem headOk_nil : headOk [] = true := rfl

theorem headOk_cons (c : Char) (l : Str) : headOk (c :: l) = !isPySpace c := rfl

theorem okRun_cons (a : Char) (l : Str) :
    okRun (a :: l) = ((headOk l || !isPySpace a) && okRun l) := by
  cases l with
  | nil => simp [okRun, headOk]
  | cons b t =>
    rw [headOk_cons]
    show ((!(isPySpace a && isPySpace b)) && okRun (b :: t)) =
      ((!isPySpace b || !isPySpace a) && okRun (b :: t))
    cases h1 : isPySpace a <;> cases h2 : isPySpace b <;> rfl

theorem okRun_tail {a : Char} {l : Str} (h : okRun (a :: l) = true) : okRun l = true := by
  rw [okRun_cons, Bool.and_eq_true] at h
  exact h.2

theorem wsCanon_collapseAux (s : Str) : ∀ b, wsCanon (collapseAux b s) = true := by
  induction s with
  | nil => intro b; rfl
  | cons c cs ih =>
    intro b
    cases hc : isPySpace c with
    | false => simpa [collapseAux, hc, wsCanon, List.all_cons] using ih false
    | true =>
      cases b with
      | true => simpa [collapseAux, hc] using ih true
      | false => simpa [collapseAux, hc, wsCanon, List.all_cons] using ih true

theorem collapse_ok (s : Str) :
    okRun (collapseAux false s) = true ∧ okRun (collapseAux true s) = true ∧
      headOk (collapseAux true s) = true := by
  induction s with
  | nil => exact ⟨rfl, rfl, rfl⟩
  | cons c cs ih =>
    obtain ⟨hf, ht, hh⟩ := ih
    cases hc : isPySpace c with
    | false =>
      refine ⟨?_, ?_, ?_⟩ <;>
        simp [collapseAux, hc, okRun_cons, hf, headOk_cons]
    | true =>
      refine ⟨?_, ?_, ?_⟩
      · simp [collapseAux, hc, okRun_cons, ht, hh]
      · simpa [collapseAux, hc] using ht
      · simpa [collapseAux, hc] using hh

theorem okRun_dropWhile (q : Char → Bool) (l : Str) (h : okRun l = true) :
    okRun (l.dropWhile q) = true := by
  induction l with
  | nil => rfl
  | cons a t ih =>
    cases hq : q a with
    | false => simpa [List.dropWhile_cons, hq] using h
    | true =>
      simp only [List.dropWhile_cons, hq, if_pos]
      exact ih (okRun_tail h)

theorem headOk_dropWhile (l : Str) : headOk (l.dropWhile isPySpace) = true := by
  induction l with
  | nil => rfl
  | cons a t ih =>
    cases ha : isPySpace a with
    | true => simpa [List.dropWhile_cons, ha] using ih
    | false => simp [List.dropWhile_cons, ha, headOk_cons]

theorem lastOk_cons (a : Char) (l : Str) (h : l ≠ []) : lastOk (a :: l) = lastOk l := by
  unfold lastOk
  cases hl : l.reverse with
  | nil => exact absurd (by simpa using congrArg List.reverse hl) h
  | cons d t => simp [List.reverse_cons, hl, headOk_cons]

theorem lastOk_dropWhile (q : Char → Bool) (l : Str) (h : lastOk l = true) :
    lastOk (l.dropWhile q) = true := by
  induction l with
  | nil => rfl
  | cons a t ih =>
    cases hq : q a with
    | false => simpa [List.dropWhile_cons, hq] using h
    | true =>
      simp only [List.dropWhile_cons, hq, if_pos]
      apply ih
      cases ht : t with
      | nil => rfl
      | cons b t' =>
        rw [ht] at h
        rw [lastOk_cons a (b :: t') (by simp)] at h
        exact h

theorem lastOk_rstrip (l : Str) : lastOk (rstripWs l) = true := by
  unfold lastOk rstripWs
  rw [List.reverse_reverse]
  exact headOk_dropWhile l.reverse

theorem okRun_concat (l : Str) (a : Char) :
    okRun (l ++ [a]) = (okRun l && (lastOk l || !isPySpace a)) := by
  induction l with
  | nil => simp [okRun, lastOk, headOk]
  | cons b t ih =>
    cases t with
    | nil =>
      cases h1 : isPySpace a <;> cases h2 : isPySpace b <;>
        simp [okRun, lastOk, headOk, h1, h2]
    | cons c t' =>
      have hhd : headOk ((c :: t') ++ [a]) = headOk (c :: t') := rfl
      have h1 : okRun ((b :: c :: t') ++ [a]) =
          ((headOk (c :: t') || !isPySpace b) && okRun ((c :: t') ++ [a])) := by
        rw [List.cons_append, okRun_cons, hhd]
      rw [h1, ih, lastOk_cons b (c :: t') (by simp), okRun_cons b (c :: t'), Bool.and_assoc]

theorem okRun_reverse (l : Str) : okRun l.reverse = okRun l := by
  induction l with
  | nil => rfl
  | cons a t ih =>
    rw [List.reverse_cons, okRun_concat, ih, okRun_cons]
    have hl : lastOk t.reverse = headOk t := by
      unfold lastOk
      rw [List.reverse_reverse]
    rw [hl, Bool.and_comm]

theorem wsCanon_mono {l l' : Str} (hsub : ∀ c, c ∈ l' → c ∈ l)
    (h : wsCanon l = true) : wsCanon l' = true := by
  rw [wsCanon, List.all_eq_true] at h ⊢
  exact fun c hc => h c (hsub c hc)

theorem wsCanon_lstrip {l : Str} (h : wsCanon l = true) : wsCanon (lstripWs l) = true :=
  wsCanon_mono (fun c hc => (List.dropWhile_sublist isPySpace).mem hc) h

theorem wsCanon_rstrip {l : Str} (h : wsCanon l = true) : wsCanon (rstripWs l) = true := by
  refine wsCanon_mono (fun c hc => ?_) h
  rw [rstripWs, List.mem_reverse] at hc
  exact List.mem_reverse.mp ((List.dropWhile_sublist isPySpace).mem hc)

theorem okRun_rstrip {l : Str} (h : okRun l = true) : okRun (rstripWs l) = true := by
  rw [rstripWs, okRun_reverse]
  exact okRun_dropWhile _ _ (by rw [okRun_reverse]; exact h)

theorem clean_spaces_wsCanon (s : Str) : wsCanon (clean_spaces s) = true :=
  wsCanon_lstrip (wsCanon_rstrip (wsCanon_collapseAux (replaceNbsp s) false))

theorem clean_spaces_okRun (s : Str) : okRun (clean_spaces s) = true :=
  okRun_dropWhile _ _ (okRun_rstrip ((collapse_ok (replaceNbsp s)).1))

theorem clean_spaces_headOk (s : Str) : headOk (clean_spaces s) = true :=
  headOk_dropWhile _

theorem clean_spaces_lastOk (s : Str) : lastOk (clean_spaces s) = true :=
  lastOk_dropWhile _ _ (lastOk_rstrip _)

/-! ## Lemmas: `clean_spaces` is the identity on canonical strings -/

theorem nbsp_not_of_wsCanon {l : Str} (h : wsCanon l = true) {c : Char}
    (hc : c ∈ l) : (c.toNat == 0xa0) = false := by
  rw [wsCanon, List.all_eq_true] at h
  have h1 := h c hc
  cases hn : (c.toNat == 0xa0) with
  | false => rfl
  | true =>
    exfalso
    have hws : isPySpace c = true := by
      unfold isPySpace
      rw [hn]
      simp
    have hsp : (c == ' ') = true := by
      rw [hws] at h1
      simpa using h1
    have : c = ' ' := by
      exact eq_of_beq hsp
    subst this
    simp at hn

theorem replaceNbsp_id {v : Str} (h : wsCanon v = true) : replaceNbsp v = v := by
  induction v with
  | nil => rfl
  | cons c cs ih =>
    have hcs : wsCanon cs = true := by
      rw [wsCanon, List.all_cons, Bool.and_eq_true] at h
      exact h.2
    have hc : (c.toNat == 0xa0) = false :=
      nbsp_not_of_wsCanon h (by simp)
    show (if c.toNat == 0xa0 then ' ' else c) :: replaceNbsp cs = c :: cs
    rw [hc, ih hcs]
    rfl

theorem collapse_id {v : Str} (hok : okRun v = true) (hcan : wsCanon v = true) :
    collapseAux false v = v ∧ (headOk v = true → collapseAux true v = v) := by
  induction v with
  | nil => exact ⟨rfl, fun _ => rfl⟩
  | cons c cs ih =>
    have hok' : okRun cs = true := okRun_tail hok
    have hcan' : wsCanon cs = true := by
      rw [wsCanon, List.all_cons, Bool.and_eq_true] at hcan
      exact hcan.2
    obtain ⟨ihf, iht⟩ := ih hok' hcan'
    cases hc : isPySpace c with
    | false =>
      constructor
      · simp [collapseAux, hc, ihf]
      · intro _
        simp [collapseAux, hc, ihf]
    | true =>
      have hsp : c = ' ' := by
        rw [wsCanon, List.all_cons, Bool.and_eq_true] at hcan
        have h1 := hcan.1
        rw [hc] at h1
        exact eq_of_beq (by simpa using h1)
      have hhd : headOk cs = true := by
        rw [okRun_cons, Bool.and_eq_true] at hok
        have h1 := hok.1
        rw [hc] at h1
        simpa using h1
      constructor
      · have h1 : collapseAux false (c :: cs) = ' ' :: collapseAux true cs := by
          simp [collapseAux, hc]
        rw [h1, iht hhd, hsp]
      · intro hhead
        rw [headOk_cons, hc] at hhead
        cases hhead

theorem dropWhile_id {v : Str} (h : headOk v = true) : v.dropWhile isPySpace = v := by
  cases v with
  | nil => rfl
  | cons c cs =>
    rw [headOk_cons] at h
    have hc : isPySpace c = false := by
      cases hc : isPySpace c
      · rfl
      · rw [hc] at h; cases h
    simp [List.dropWhile_cons, hc]

theorem rstrip_id {v : Str} (h : lastOk v = true) : rstripWs v = v := by
  unfold rstripWs
  rw [dropWhile_id h]
  exact List.reverse_reverse v

theorem clean_spaces_id {v : Str} (hcan : wsCanon v = true) (hok : okRun v = true)
    (hhd : headOk v = true) (hlst : lastOk v = true) : clean_spaces v = v := by
  unfold clean_spaces stripWs collapseWs lstripWs
  rw [replaceNbsp_id hcan, (collapse_id hok hcan).1, rstrip_id hlst, dropWhile_id hhd]

theorem clean_spaces_idem (s : Str) : clean_spaces (clean_spaces s) = clean_spaces s :=
  clean_spaces_id (clean_spaces_wsCanon s) (clean_spaces_okRun s)
    (clean_spaces_headOk s) (clean_spaces_lastOk s)

theorem nbsp_not_mem_of_wsCanon {v : Str} (h : wsCanon v = true) : '\u00a0' ∉ v := by
  intro hm
  have h1 := nbsp_not_of_wsCanon h hm
  rw [show (('\u00a0').toNat == 0xa0) = true from by decide] at h1
  cases h1

/-! ## Lemmas: the extractor's candidate scan -/

theorem findSome?_clean {win : Str} {l : List RMatch} {v : Str}
    (h : l.findSome? (fun c =>
        let value := clean_spaces (c.group0 win)
        if value = [] then none else some value) = some v) :
    (∃ g, v = clean_spaces g) ∧ v ≠ [] := by
  induction l with
  | nil => cases h
  | cons c rest ih =>
    rw [List.findSome?_cons] at h
    by_cases hv : clean_spaces (RMatch.group0 c win) = []
    · simp only [hv, ite_true] at h
      exact ih h
    · simp only [hv, ite_false] at h
      have hvv : v = clean_spaces (RMatch.group0 c win) := by
        cases h
        rfl
      exact ⟨⟨_, hvv⟩, by rw [hvv]; exact hv⟩

theorem findSome?_firstNonEmpty (win : Str) (l : List RMatch) :
    (l.findSome? (fun c =>
        let value := clean_spaces (c.group0 win)
        if value = [] then none else some value)) = firstNonEmptyCandidate win l := by
  induction l with
  | nil => rfl
  | cons c rest ih =>
    rw [List.findSome?_cons]
    by_cases hv : clean_spaces (RMatch.group0 c win) = []
    · simp only [hv, ite_true, firstNonEmptyCandidate]
      exact ih
    · simp only [hv, ite_false, firstNonEmptyCandidate]

theorem find_near_label_some {text : Str} {lp vp : RE} {w : Nat} {v : Str}
    (h : find_near_label text lp vp w = some v) : (∃ g, v = clean_spaces g) ∧ v ≠ [] := by
  unfold find_near_label at h
  cases hm : reSearch lp text with
  | none => rw [hm] at h; cases h
  | some m =>
    rw [hm] at h
    exact findSome?_clean h

/-! ## Lemmas: the fetch boundary and the strategies -/

theorem goto_snd_isSome {o : NavOutcome} (h : (goto_soft o).fst = false) :
    (goto_soft o).snd.isSome = true := by
  cases o with
  | response s => by_cases h4 : s ≥ 400 <;> simp [goto_soft, h4] at h ⊢
  | noResponse => rfl
  | timeout => rfl
  | exn m => rfl

theorem parse_node_isOk (u : String) (e : NodeEnv) :
    isOkE (parse_node u e) = (!(goto_soft e.nav).fst || e.has_total_label) := by
  cases hf : (goto_soft e.nav).fst <;> cases hl : e.has_total_label <;>
    simp [parse_node, isOkE, hf, hl]

theorem parse_discord_isOk (e : DiscordEnv) :
    isOkE (parse_discord e) = (!(goto_soft e.nav).fst || e.has_online_sel) := by
  cases hf : (goto_soft e.nav).fst <;> cases hl : e.has_online_sel <;>
    simp [parse_discord, isOkE, hf, hl]

theorem parse_x_isOk (e : XEnv) : isOkE (parse_x e) = true := by
  cases hf : (goto_soft e.nav).fst <;> simp [parse_x, isOkE, hf]

theorem parse_github_isOk (e : GitHubEnv) : isOkE (parse_github e) = true := by
  cases hf : (goto_soft e.nav).fst <;> simp [parse_github, isOkE, hf]

theorem parse_hex_isOk (e : HexEnv) : isOkE (parse_hex e) = true := by
  cases hf : (goto_soft e.nav).fst <;> simp [parse_hex, isOkE, hf]

theorem exists_ok_of_isOkE {α : Type} {x : Except PwErr α} (h : isOkE x = true) :
    ∃ r, x = Except.ok r := by
  cases x with
  | ok r => exact ⟨r, rfl⟩
  | error e => cases h

theorem parse_node_url (u : String) (e : NodeEnv) (r : NodeMetrics)
    (h : parse_node u e = Except.ok r) : r.url = u := by
  cases hf : (goto_soft e.nav).fst
  · simp [parse_node, hf] at h
    rw [← h]
  · cases hl : e.has_total_label
    · simp [parse_node, hf, hl] at h
    · simp [parse_node, hf, hl] at h
      rw [← h]

theorem parse_node_ok_url (u : String) (e : NodeEnv)
    (h : (!(goto_soft e.nav).fst || e.has_total_label) = true) :
    ∃ r, parse_node u e = Except.ok r ∧ r.url = u := by
  obtain ⟨r, hr⟩ := exists_ok_of_isOkE (x := parse_node u e) (by rw [parse_node_isOk]; exact h)
  exact ⟨r, hr, parse_node_url u e r hr⟩

theorem parse_discord_ok (e : DiscordEnv)
    (h : (!(goto_soft e.nav).fst || e.has_online_sel) = true) :
    ∃ r, parse_discord e = Except.ok r :=
  exists_ok_of_isOkE (by rw [parse_discord_isOk]; exact h)

theorem parse_x_ok (e : XEnv) : ∃ r, parse_x e = Except.ok r :=
  exists_ok_of_isOkE (by rw [parse_x_isOk])

theorem parse_github_ok (e : GitHubEnv) : ∃ r, parse_github e = Except.ok r :=
  exists_ok_of_isOkE (by rw [parse_github_isOk])

theorem parse_hex_ok (e : HexEnv) : ∃ r, parse_hex e = Except.ok r :=
  exists_ok_of_isOkE (by rw [parse_hex_isOk])

theorem collectNodes_ok (w : World) (l : List String)
    (h : l.all (fun u => !(goto_soft (w.node u).nav).fst || (w.node u).has_total_label) = true) :
    ∃ ns, collectNodes w l = Except.ok ns ∧ ns.map (fun r => r.url) = l := by
  induction l with
  | nil => exact ⟨[], rfl, rfl⟩
  | cons u rest ih =>
    rw [List.all_cons, Bool.and_eq_true] at h
    obtain ⟨r, hr, hurl⟩ := parse_node_ok_url u (w.node u) h.1
    obtain ⟨ns, hns, hmap⟩ := ih h.2
    refine ⟨r :: ns, ?_, ?_⟩
    · simp [collectNodes, hr, hns]
    · simp [hmap, hurl]

/-! ## The claims -/

set_option maxRecDepth 10000

/-- Claim C1: `find_near_label` follows the specified algorithm — it
agrees with the spec's step-by-step transcription
(`find_near_label_spec`) on every text, label pattern, value pattern
and window (first label match, clamped window, left-to-right scan,
first candidate with non-empty normalization), and in particular it
returns absent when the label pattern has no match in the text. -/
theorem find_near_label_follows_spec :
    (∀ (text : Str) (lp vp : RE) (w : Nat),
      find_near_label text lp vp w = find_near_label_spec text lp vp w) ∧
    (∀ (text : Str) (lp vp : RE) (w : Nat),
      reSearch lp text = none → find_near_label text lp vp w = none) := by
  constructor
  · intro text lp vp w
    unfold find_near_label find_near_label_spec
    cases hm : reSearch lp text with
    | none => rfl
    | some m => exact findSome?_firstNonEmpty _ _
  · intro text lp vp w h
    unfold find_near_label
    rw [h]

/-- Witness for C1: a text with no label match yields absent. -/
theorem find_near_label_follows_spec_witness :
    find_near_label (str "hello") reLabelValidators reDigits18 120 = none :=
  find_near_label_follows_spec.2 (str "hello") reLabelValidators reDigits18 120 (by rfl)

/-- Claim C2: whenever the fetch result is not ok, each of the five
strategies returns its failure record whose error equals the fetch
error reason, with all data fields absent and no exception raised. -/
theorem strategies_fetch_failure (u : String) (ne : NodeEnv) (de : DiscordEnv)
    (xe : XEnv) (ge : GitHubEnv) (he : HexEnv) :
    ((goto_soft ne.nav).fst = false →
      parse_node u ne = Except.ok ⟨u, false, none, none, none, (goto_soft ne.nav).snd⟩) ∧
    ((goto_soft de.nav).fst = false →
      parse_discord de = Except.ok ⟨none, none, (goto_soft de.nav).snd⟩) ∧
    ((goto_soft xe.nav).fst = false →
      parse_x xe = Except.ok ⟨none, (goto_soft xe.nav).snd⟩) ∧
    ((goto_soft ge.nav).fst = false →
      parse_github ge = Except.ok ⟨none, (goto_soft ge.nav).snd⟩) ∧
    ((goto_soft he.nav).fst = false →
      parse_hex he = Except.ok ⟨none, (goto_soft he.nav).snd⟩) := by
  refine ⟨fun h => ?_, fun h => ?_, fun h => ?_, fun h => ?_, fun h => ?_⟩
  · simp [parse_node, h]
  · simp [parse_discord, h]
  · simp [parse_x, h]
  · simp [parse_github, h]
  · simp [parse_hex, h]

/-- Witness for C2: a `Timeout` fetch failure gives each strategy a
failure record with `error = "Timeout"` and absent data fields. -/
theorem strategies_fetch_failure_witness :
    parse_node "u" ⟨NavOutcome.timeout, true, none, []⟩ =
      Except.ok ⟨"u", false, none, none, none, some "Timeout"⟩ ∧
    parse_discord ⟨NavOutcome.timeout, true, [], []⟩ =
      Except.ok ⟨none, none, some "Timeout"⟩ ∧
    parse_x ⟨NavOutcome.timeout, [], []⟩ = Except.ok ⟨none, some "Timeout"⟩ ∧
    parse_github ⟨NavOutcome.timeout, none, none, none, []⟩ =
      Except.ok ⟨none, some "Timeout"⟩ ∧
    parse_hex ⟨NavOutcome.timeout, []⟩ = Except.ok ⟨none, some "Timeout"⟩ := by
  obtain ⟨h1, h2, h3, h4, h5⟩ := strategies_fetch_failure "u"
    ⟨NavOutcome.timeout, true, none, []⟩ ⟨NavOutcome.timeout, true, [], []⟩
    ⟨NavOutcome.timeout, [], []⟩ ⟨NavOutcome.timeout, none, none, none, []⟩
    ⟨NavOutcome.timeout, []⟩
  exact ⟨h1 rfl, h2 rfl, h3 rfl, h4 rfl, h5 rfl⟩

/-- Counterexample to claim C3 as stated: on a reachable page (HTTP
200) that never renders "Total Compute Power", the node strategy's
extraction phase raises the `wait_for_selector` timeout instead of
returning an available record with absent fields. -/
theorem parse_node_extraction_raises :
    parse_node "http://node1.gonka.ai:8000" nodeEnvHang = Except.error PwErr.timeout := by
  decide

/-- Claim C3 (amended): past the fetch-failure branch, extraction never
raises for the follower, repository and price strategies; for the node
and community strategies it never raises exactly when the awaited
selector text is present (a reachable page without it makes
`wait_for_selector` raise a timeout); and a reachable page where zero
patterns match still yields an available/success record with every data
field absent and no error. -/
theorem extraction_exception_free_amended :
    (∀ (u : String) (e : NodeEnv),
      isOkE (parse_node u e) = (!(goto_soft e.nav).fst || e.has_total_label)) ∧
    (∀ e : DiscordEnv,
      isOkE (parse_discord e) = (!(goto_soft e.nav).fst || e.has_online_sel)) ∧
    (∀ e : XEnv, isOkE (parse_x e) = true) ∧
    (∀ e : GitHubEnv, isOkE (parse_github e) = true) ∧
    (∀ e : HexEnv, isOkE (parse_hex e) = true) ∧
    (∀ (u : String) (e : NodeEnv),
      (goto_soft e.nav).fst = true → e.has_total_label = true →
      e.eval_total = none →
      find_near_label (clean_spaces e.body) reLabelValidators reDigits18 120 = none →
      find_near_label (clean_spaces e.body) reLabelNextPoc reDuration 200 = none →
      parse_node u e = Except.ok ⟨u, true, none, none, none, none⟩) ∧
    (∀ e : DiscordEnv,
      (goto_soft e.nav).fst = true → e.has_online_sel = true →
      reSearch reOnline (e.html ++ ' ' :: clean_spaces e.body) = none →
      reSearch reMembers (e.html ++ ' ' :: clean_spaces e.body) = none →
      parse_discord e = Except.ok ⟨none, none, none⟩) ∧
    (∀ e : XEnv,
      (goto_soft e.nav).fst = true →
      reSearch reXP1 (clean_spaces e.body ++ ' ' :: e.content) = none →
      reSearch reXP2 (clean_spaces e.body ++ ' ' :: e.content) = none →
      reSearch reXP3 (clean_spaces e.body ++ ' ' :: e.content) = none →
      parse_x e = Except.ok ⟨none, none⟩) ∧
    (∀ e : GitHubEnv,
      (goto_soft e.nav).fst = true →
      e.sel1 = none → e.sel2 = none → e.sel3 = none →
      reSearch reStarsText (clean_spaces e.body) = none →
      parse_github e = Except.ok ⟨none, none⟩) ∧
    (∀ e : HexEnv,
      (goto_soft e.nav).fst = true →
      reSearch reHexSell (clean_spaces e.body) = none →
      reSearch reHexBuy (clean_spaces e.body) = none →
      reSearch reHexBare (clean_spaces e.body) = none →
      parse_hex e = Except.ok ⟨none, none⟩) := by
  refine ⟨parse_node_isOk, parse_discord_isOk, parse_x_isOk, parse_github_isOk,
    parse_hex_isOk, ?_, ?_, ?_, ?_, ?_⟩
  · intro u e hf hl hev hv hn
    simp [parse_node, hf, hl, hev, hv, hn, totalField]
  · intro e hf hl h1 h2
    simp [parse_discord, hf, hl, h1, h2]
  · intro e hf h1 h2 h3
    simp [parse_x, hf, xPatterns, List.findSome?_cons, h1, h2, h3]
  · intro e hf h1 h2 h3 h4
    simp [parse_github, hf, h1, h2, h3, starsFromSelectors, truthy, h4]
  · intro e hf h1 h2 h3
    simp [parse_hex, hf, hexPatterns, List.findSome?_cons, h1, h2, h3]

/-- Witness for C3 (amended): a reachable node page with zero matches
yields the all-absent available record, and `isOkE` matches the
characterization on the hanging page. -/
theorem extraction_exception_free_amended_witness :
    parse_node "u" nodeEnvUp = Except.ok ⟨"u", true, none, none, none, none⟩ ∧
    isOkE (parse_node "u" nodeEnvHang) = false := by
  constructor
  · exact extraction_exception_free_amended.2.2.2.2.2.1 "u" nodeEnvUp rfl rfl rfl
      (by rfl) (by rfl)
  · rw [extraction_exception_free_amended.1 "u" nodeEnvHang]
    rfl

/-- Counterexample to claim C4 as stated: when the first node's page is
reachable but never renders the awaited label, the selector timeout
propagates out of `collect` — no snapshot is produced at all, so the
aggregator is not exception-free. -/
theorem collect_raises : collect worldHang = Except.error PwErr.timeout := by decide

/-- Claim C4 (amended): provided every node page either fails its fetch
or shows the awaited label text, and the community page either fails
its fetch or shows its selector, `collect` returns a snapshot with
exactly one node record per configured URL in configured order plus the
four singleton records; in the scenario where the first node's fetch
fails and every other source is reachable it returns exactly six
records — one failure node record and five success records.  (As
stated the claim is false: an extraction-phase selector timeout
propagates and aborts the whole run — see the counterexample.) -/
theorem collect_snapshot_amended :
    (∀ w : World,
      NODE_URLS.all
        (fun u => !(goto_soft (w.node u).nav).fst || (w.node u).has_total_label) = true →
      (!(goto_soft w.discord.nav).fst || w.discord.has_online_sel) = true →
      ∃ s, collect w = Except.ok s ∧ s.nodes.map (fun r => r.url) = NODE_URLS ∧
        s.nodes.length = NODE_URLS.length) ∧
    collect worldOneDown = Except.ok
      ⟨[⟨"http://node1.gonka.ai:8000", false, none, none, none, some "Timeout"⟩,
        ⟨"http://node2.gonka.ai:8000", true, none, none, none, none⟩],
       ⟨none, none, none⟩, ⟨none, none⟩, ⟨none, none⟩, ⟨none, none⟩⟩ := by
  constructor
  · intro w hn hd
    obtain ⟨ns, hns, hmap⟩ := collectNodes_ok w NODE_URLS hn
    obtain ⟨d, hdd⟩ := parse_discord_ok w.discord hd
    obtain ⟨xm, hx⟩ := parse_x_ok w.x
    obtain ⟨gm, hg⟩ := parse_github_ok w.github
    obtain ⟨hm, hh⟩ := parse_hex_ok w.hex
    refine ⟨⟨ns, d, xm, gm, hm⟩, ?_, hmap, ?_⟩
    · simp [collect, hns, hdd, hx, hg, hh]
    · rw [← hmap]
      simp
  · decide

/-- Witness for C4 (amended) in the claim's scenario: one node fetch
down, everything else reachable, six records in configured order. -/
theorem collect_snapshot_amended_witness :
    ∃ s, collect worldOneDown = Except.ok s ∧
      s.nodes.map (fun r => r.url) = NODE_URLS ∧ s.nodes.length = NODE_URLS.length :=
  collect_snapshot_amended.1 worldOneDown (by decide) (by decide)

/-- Claim C5: on the spec's example community text
"Гонка 1 234 в сети, 5 678 участников" (reachable page), the two
independent regex searches capture the numbers adjacent to their label
words: online = "1 234" and members = "5 678". -/
theorem discord_example_counts :
    parse_discord discordEnvRu =
      Except.ok ⟨some (str "1 234"), some (str "5 678"), none⟩ := by decide

/-- Claim C6: the price strategy tries its three patterns in fixed
order, so whenever the sell-price pattern matches the cleaned page text
(and even though a bare currency-prefixed number is also present), the
result is the sell-price match's capture with spaces stripped — the
later, more generic patterns are never consulted. -/
theorem hex_sell_price_wins (e : HexEnv)
    (hnav : (goto_soft e.nav).fst = true)
    (hsell : (reSearch reHexSell (clean_spaces e.body)).isSome = true)
    (hbare : (reSearch reHexBare (clean_spaces e.body)).isSome = true) :
    parse_hex e = Except.ok
      ⟨(reSearch reHexSell (clean_spaces e.body)).map
          (fun m => (m.group1 (clean_spaces e.body)).filter (fun c => !(c == ' '))),
       none⟩ := by
  obtain ⟨m, hm⟩ := Option.isSome_iff_exists.mp hsell
  simp [parse_hex, hnav, hexPatterns, List.findSome?_cons, hm]

/-- Witness for C6: a page with "Sell Price: 3.50" and "$9.99" yields
the sell price "3.50". -/
theorem hex_sell_price_wins_witness :
    parse_hex hexEnvBoth = Except.ok ⟨some (str "3.50"), none⟩ := by
  have h := hex_sell_price_wins hexEnvBoth rfl (by rfl) (by rfl)
  rw [h]
  decide

/-- Claim C7: `clean_spaces` is idempotent on every input string, and
its output has no run of two adjacent whitespace characters and no
leading or trailing whitespace. -/
theorem clean_spaces_normalizes (s : Str) :
    clean_spaces (clean_spaces s) = clean_spaces s ∧
    okRun (clean_spaces s) = true ∧
    headOk (clean_spaces s) = true ∧
    lastOk (clean_spaces s) = true :=
  ⟨clean_spaces_idem s, clean_spaces_okRun s, clean_spaces_headOk s,
    clean_spaces_lastOk s⟩

/-- Claim C8: the fetch boundary is total and returns exactly one of
the five specified outcomes: ok below status 400, "HTTP code" at 400
or above, "No response", "Timeout", or the exception's message. -/
theorem goto_soft_cases :
    (∀ s : Nat, s < 400 → goto_soft (NavOutcome.response s) = (true, none)) ∧
    (∀ s : Nat, 400 ≤ s →
      goto_soft (NavOutcome.response s) = (false, some ("HTTP " ++ toString s))) ∧
    goto_soft NavOutcome.noResponse = (false, some "No response") ∧
    goto_soft NavOutcome.timeout = (false, some "Timeout") ∧
    (∀ msg : String, goto_soft (NavOutcome.exn msg) = (false, some msg)) := by
  refine ⟨fun s h => ?_, fun s h => ?_, rfl, rfl, fun msg => rfl⟩
  · simp [goto_soft, Nat.not_le.mpr h]
  · simp [goto_soft, h]

/-- Witness for C8 at statuses 200 and 404 and a generic exception. -/
theorem goto_soft_cases_witness :
    goto_soft (NavOutcome.response 200) = (true, none) ∧
    goto_soft (NavOutcome.response 404) = (false, some "HTTP 404") ∧
    goto_soft (NavOutcome.exn "boom") = (false, some "boom") := by
  refine ⟨goto_soft_cases.1 200 (by decide), ?_, goto_soft_cases.2.2.2.2 "boom"⟩
  have h := goto_soft_cases.2.1 404 (by decide)
  rw [h]
  decide

/-- Claim C9 (implicit): every present value returned by
`find_near_label` is non-empty and already fully normalized: a fixed
point of `clean_spaces`, with no NBSP, no two adjacent whitespace
characters, and no leading or trailing whitespace. -/
theorem find_near_label_normalized (text : Str) (lp vp : RE) (w : Nat) (v : Str)
    (h : find_near_label text lp vp w = some v) :
    v ≠ [] ∧ clean_spaces v = v ∧ okRun v = true ∧ headOk v = true ∧
      lastOk v = true ∧ '\u00a0' ∉ v := by
  obtain ⟨⟨g, hg⟩, hne⟩ := find_near_label_some h
  subst hg
  exact ⟨hne, clean_spaces_idem g, clean_spaces_okRun g, clean_spaces_headOk g,
    clean_spaces_lastOk g, nbsp_not_mem_of_wsCanon (clean_spaces_wsCanon g)⟩

/-- Witness for C9: the extracted value "12345" from
"Validators 12345" is non-empty and canonical. -/
theorem find_near_label_normalized_witness :
    str "12345" ≠ [] ∧ clean_spaces (str "12345") = str "12345" ∧
      okRun (str "12345") = true ∧ headOk (str "12345") = true ∧
      lastOk (str "12345") = true ∧ '\u00a0' ∉ str "12345" :=
  find_near_label_normalized (str "Validators 12345") reLabelValidators reDigits18 120
    (str "12345") (by decide)

/-- Claim C10 (implicit): every NodeMetrics record produced by
parse_node satisfies the availability invariant: unavailable records
carry an error and only absent data fields; available records carry no
error. -/
theorem parse_node_invariant (u : String) (e : NodeEnv) (r : NodeMetrics)
    (h : parse_node u e = Except.ok r) :
    (r.available = false →
      r.total_compute_power = none ∧ r.validators = none ∧ r.next_poc = none ∧
        r.error.isSome = true) ∧
    (r.available = true → r.error = none) := by
  cases hf : (goto_soft e.nav).fst
  · simp [parse_node, hf] at h
    rw [← h]
    exact ⟨fun _ => ⟨rfl, rfl, rfl, goto_snd_isSome hf⟩, fun hav => by simp at hav⟩
  · cases hl : e.has_total_label
    · simp [parse_node, hf, hl] at h
    · simp [parse_node, hf, hl] at h
      rw [← h]
      exact ⟨fun hav => by simp at hav, fun _ => rfl⟩

/-- Witness for C10 on the timed-out fetch record. -/
theorem parse_node_invariant_witness :
    ((⟨"u", false, none, none, none, some "Timeout"⟩ : NodeMetrics).available = false →
      (⟨"u", false, none, none, none, some "Timeout"⟩ : NodeMetrics).total_compute_power = none ∧
      (⟨"u", false, none, none, none, some "Timeout"⟩ : NodeMetrics).validators = none ∧
      (⟨"u", false, none, none, none, some "Timeout"⟩ : NodeMetrics).next_poc = none ∧
      ((⟨"u", false, none, none, none, some "Timeout"⟩ : NodeMetrics).error).isSome = true) ∧
    ((⟨"u", false, none, none, none, some "Timeout"⟩ : NodeMetrics).available = true →
      (⟨"u", false, none, none, none, some "Timeout"⟩ : NodeMetrics).error = none) :=
  parse_node_invariant "u" ⟨NavOutcome.timeout, true, none, []⟩
    ⟨"u", false, none, none, none, some "Timeout"⟩ (by decide)
